import Mathlib

/-!
Shallow embedding of the properties CRUD resource of this repository
(src/routes/properties.js).  Request-body fields are JavaScript values that
may be absent (`undefined`), `null`, a string, or a number; the handlers
merge them by JavaScript truthiness or by presence, exactly as the source
does.  The Prisma store is modelled as a list of records; each handler takes
a `fault` argument injecting a failure of the persistence client (the
`catch` branch of the source), `none` meaning every persistence call
succeeds.
-/

/-- A JavaScript value as it can appear in a request-body field:
absent (`undefined`), `null`, a string, or a number. -/
inductive JsValue where
  | undef : JsValue
  | null : JsValue
  | str : String → JsValue
  | num : Int → JsValue
deriving DecidableEq

/-- JavaScript truthiness of a `JsValue`: `undefined`, `null`, the empty
string and `0` are falsy, every other modelled value is truthy. -/
def jsTruthy : JsValue → Bool
  | .undef => false
  | .null => false
  | .str s => decide (s ≠ "")
  | .num n => decide (n ≠ 0)

/-- JavaScript presence test `x !== undefined`. -/
def jsPresent : JsValue → Bool
  | .undef => false
  | _ => true

/-- The JavaScript expression `a || b` restricted to the fallback pattern
used by the handlers: the left operand if truthy, otherwise the right. -/
def jsOr (a b : JsValue) : JsValue :=
  if jsTruthy a then a else b

/-- A persisted Property record.  Field values are kept as `JsValue`
because the handlers pass request values through without coercion;
`createdAt` and `updatedAt` are the server-assigned timestamps. -/
structure Property where
  id : String
  name : JsValue
  location : JsValue
  brochure : JsValue
  image : JsValue
  model3d : JsValue
  availableApartments : JsValue
  status : JsValue
  createdAt : Int
  updatedAt : Int
deriving DecidableEq

/-- The destructured request body
`{ name, location, brochure, image, model3d, availableApartments, status }`;
a field the caller did not send is `JsValue.undef`. -/
structure PropertyBody where
  name : JsValue
  location : JsValue
  brochure : JsValue
  image : JsValue
  model3d : JsValue
  availableApartments : JsValue
  status : JsValue
deriving DecidableEq

/-- The JSON response of the create / get-by-id / update / delete handlers:
HTTP status code, optional `message`, optional `property` payload, and the
optional `error` text of the 500 branch. -/
structure ApiResponse where
  status : Nat
  message : Option String
  property : Option Property
  errorText : Option String
deriving DecidableEq

/-- The pagination descriptor returned by the list handler. -/
structure Pagination where
  currentPage : Int
  totalPages : Int
  totalItems : Nat
  itemsPerPage : Int
  hasNextPage : Bool
  hasPrevPage : Bool
deriving DecidableEq

/-- The JSON response of the list handler. -/
structure ListResponse where
  status : Nat
  message : Option String
  properties : List Property
  pagination : Option Pagination
  errorText : Option String
deriving DecidableEq

/-- `POST /api/properties` (src/routes/properties.js, router.post).
Validates `!name || !location`, then persists
`{ name, location, brochure: brochure || null, image: image || null,
model3d: model3d || null, availableApartments: availableApartments || 0,
status: status || 'available' }`.  `genId` is the id Prisma generates and
`now` the timestamp it assigns.  Returns the response and the new store. -/
def createProperty (fault : Option String) (store : List Property)
    (genId : String) (now : Int) (b : PropertyBody) :
    ApiResponse × List Property :=
  if !jsTruthy b.name || !jsTruthy b.location then
    ({ status := 400, message := some "Name and location are required",
       property := none, errorText := none }, store)
  else
    match fault with
    | some m =>
        ({ status := 500, message := some "Server error during property creation",
           property := none, errorText := some m }, store)
    | none =>
        let p : Property :=
          { id := genId, name := b.name, location := b.location,
            brochure := jsOr b.brochure .null,
            image := jsOr b.image .null,
            model3d := jsOr b.model3d .null,
            availableApartments := jsOr b.availableApartments (.num 0),
            status := jsOr b.status (.str "available"),
            createdAt := now, updatedAt := now }
        ({ status := 201, message := some "Property created successfully",
           property := some p, errorText := none }, store ++ [p])

/-- `parseInt` of JavaScript on a decimal string: skip leading whitespace,
an optional sign, then the leading run of digits; `none` models `NaN`. -/
def parseIntJs (s : String) : Option Int :=
  let cs := s.data.dropWhile Char.isWhitespace
  let signAndRest : Int × List Char :=
    match cs with
    | '-' :: t => (-1, t)
    | '+' :: t => (1, t)
    | t => (1, t)
  let ds := signAndRest.2.takeWhile Char.isDigit
  if ds.isEmpty then none
  else some (signAndRest.1 *
    (ds.foldl (fun acc c => acc * 10 + (c.toNat - 48)) 0 : Nat))

/-- The coercion pattern `parseInt(q) || d` of the list handler: a `NaN`
(parse failure) or a parse result of `0` falls back to the default `d`,
any other parse result (negative included) is used as-is. -/
def jsOrDefault (x : Option Int) (d : Int) : Int :=
  match x with
  | none => d
  | some v => if v = 0 then d else v

/-- `b.createdAt ≤ a.createdAt`: the `orderBy: { createdAt: 'desc' }`
ordering of the list handler. -/
def byCreatedAtDesc (a b : Property) : Prop :=
  b.createdAt ≤ a.createdAt

instance : DecidableRel byCreatedAtDesc :=
  fun a b => inferInstanceAs (Decidable (b.createdAt ≤ a.createdAt))

instance : IsTotal Property byCreatedAtDesc :=
  ⟨fun a b => le_total b.createdAt a.createdAt⟩

instance : IsTrans Property byCreatedAtDesc :=
  ⟨fun _ _ _ h1 h2 => le_trans h2 h1⟩

/-- The store as `findMany({ orderBy: { createdAt: 'desc' } })` returns it. -/
def sortByCreatedAtDesc (l : List Property) : List Property :=
  List.insertionSort byCreatedAtDesc l

/-- `Math.ceil(n / l)` for a non-negative `n` (the record count) and any
non-zero `l` (`limit` can never resolve to `0`, since `0` is falsy): for a
positive divisor the usual ceiling division, for a negative one the
quotient is non-positive and its ceiling rounds toward zero. -/
def jsCeilDiv (n l : Int) : Int :=
  if 0 ≤ l then Int.ediv (n + l - 1) l else -(Int.ediv n (-l))

/-- Modelled from the spec: the persistence client "must throw/reject on
any underlying failure"; `findMany` rejects a negative `skip`, and the
error message text lives in the client, outside this repository. -/
def negativeSkipErrorText : String :=
  "Invalid value for skip"

/-- `GET /api/properties` (src/routes/properties.js, router.get on the
collection).  `page = parseInt(req.query.page) || 1`,
`limit = parseInt(req.query.limit) || 10`, `skip = (page-1)*limit`; on a
persistence fault the 500 branch; otherwise count, then
`findMany({ orderBy: { createdAt: 'desc' }, skip, take: limit })` and the
pagination descriptor.  `findMany` rejects a negative `skip` (reachable
through a negative `page`), so the handler's catch answers 500 there; a
negative `take` is accepted by the client and returns the last `|take|`
records of the ordered result. -/
def listProperties (fault : Option String) (store : List Property)
    (pageQ limitQ : Option String) : ListResponse :=
  let page := jsOrDefault (Option.bind pageQ parseIntJs) 1
  let limit := jsOrDefault (Option.bind limitQ parseIntJs) 10
  let skip := (page - 1) * limit
  match fault with
  | some m =>
      { status := 500, message := some "Server error", properties := [],
        pagination := none, errorText := some m }
  | none =>
      if skip < 0 then
        { status := 500, message := some "Server error", properties := [],
          pagination := none, errorText := some negativeSkipErrorText }
      else
        let totalCount := store.length
        let afterSkip := (sortByCreatedAtDesc store).drop skip.toNat
        let props :=
          if 0 ≤ limit then afterSkip.take limit.toNat
          else (afterSkip.reverse.take (-limit).toNat).reverse
        let totalPages := jsCeilDiv (totalCount : Int) limit
        { status := 200, message := none, properties := props,
          pagination := some
            { currentPage := page, totalPages := totalPages,
              totalItems := totalCount, itemsPerPage := limit,
              hasNextPage := decide (page < totalPages),
              hasPrevPage := decide (1 < page) },
          errorText := none }

/-- `GET /api/properties/:id` (src/routes/properties.js, router.get on a
single id): `findUnique`, 404 when absent, 200 with the record when
found. -/
def getProperty (fault : Option String) (store : List Property)
    (id : String) : ApiResponse :=
  match fault with
  | some m =>
      { status := 500, message := some "Server error",
        property := none, errorText := some m }
  | none =>
      match store.find? (fun p => p.id == id) with
      | none =>
          { status := 404, message := some "Property not found",
            property := none, errorText := none }
      | some p =>
          { status := 200, message := none,
            property := some p, errorText := none }

/-- The `data` object of the update call: `name`, `location`, `status`
fall back on truthiness (`x || existing.x`); `brochure`, `image`,
`model3d`, `availableApartments` on presence
(`x !== undefined ? x : existing.x`).  `now` is the refreshed update
timestamp the persistence layer maintains. -/
def mergeUpdate (existing : Property) (b : PropertyBody) (now : Int) :
    Property :=
  { existing with
    name := jsOr b.name existing.name,
    location := jsOr b.location existing.location,
    brochure := if jsPresent b.brochure then b.brochure else existing.brochure,
    image := if jsPresent b.image then b.image else existing.image,
    model3d := if jsPresent b.model3d then b.model3d else existing.model3d,
    availableApartments :=
      if jsPresent b.availableApartments then b.availableApartments
      else existing.availableApartments,
    status := jsOr b.status existing.status,
    updatedAt := now }

/-- `PUT /api/properties/:id` (src/routes/properties.js, router.put):
`findUnique`, 404 when absent, otherwise `update` with the merged data.
Returns the response and the new store. -/
def updateProperty (fault : Option String) (store : List Property)
    (id : String) (now : Int) (b : PropertyBody) :
    ApiResponse × List Property :=
  match fault with
  | some m =>
      ({ status := 500, message := some "Server error during property update",
         property := none, errorText := some m }, store)
  | none =>
      match store.find? (fun p => p.id == id) with
      | none =>
          ({ status := 404, message := some "Property not found",
             property := none, errorText := none }, store)
      | some existing =>
          let p := mergeUpdate existing b now
          ({ status := 200, message := some "Property updated successfully",
             property := some p, errorText := none },
           store.map (fun q => if q.id == id then p else q))

/-- `DELETE /api/properties/:id` (src/routes/properties.js,
router.delete): `findUnique`, 404 when absent, otherwise `delete`.
Returns the response and the new store. -/
def deleteProperty (fault : Option String) (store : List Property)
    (id : String) : ApiResponse × List Property :=
  match fault with
  | some m =>
      ({ status := 500, message := some "Server error during property deletion",
         property := none, errorText := some m }, store)
  | none =>
      match store.find? (fun p => p.id == id) with
      | none =>
          ({ status := 404, message := some "Property not found",
             property := none, errorText := none }, store)
      | some _ =>
          ({ status := 200, message := some "Property deleted successfully",
             property := none, errorText := none },
           store.filter (fun p => p.id != id))

/-- A store-mutating request against the resource (the read-only list and
get-by-id handlers never return a modified store). -/
inductive Op where
  | createOp : String → Int → PropertyBody → Op
  | updateOp : String → Int → PropertyBody → Op
  | deleteOp : String → Op

/-- The store after one fault-free mutating request. -/
def applyOp (store : List Property) : Op → List Property
  | .createOp g n b => (createProperty none store g n b).2
  | .updateOp i n b => (updateProperty none store i n b).2
  | .deleteOp i => (deleteProperty none store i).2

/-- Every record of the store has a truthy (hence non-empty) `name` and
`location`. -/
def GoodStore (store : List Property) : Prop :=
  ∀ p ∈ store, jsTruthy p.name = true ∧ jsTruthy p.location = true

/-- A concrete record used to instantiate the universally quantified
theorems below. -/
def sampleProp : Property :=
  { id := "p1", name := .str "Casa Alta", location := .str "Goa",
    brochure := .null, image := .str "img.png", model3d := .null,
    availableApartments := .num 3, status := .str "available",
    createdAt := 10, updatedAt := 10 }

/-- A concrete update body supplying a falsy `name`, an explicit `null`
`brochure` and an explicit `availableApartments = 0`. -/
def sampleBody : PropertyBody :=
  { name := .str "", location := .undef, brochure := .null,
    image := .undef, model3d := .str "m.glb",
    availableApartments := .num 0, status := .str "sold" }

/-- A concrete create body supplying falsy values for every optional
field. -/
def sampleFalsyBody : PropertyBody :=
  { name := .str "Casa Alta", location := .str "Goa", brochure := .null,
    image := .str "", model3d := .num 0,
    availableApartments := .num 0, status := .str "" }

/-- A concrete three-record store with distinct ids and timestamps. -/
def demoStore : List Property :=
  [{ id := "p1", name := .str "A", location := .str "X", brochure := .null,
     image := .null, model3d := .null, availableApartments := .num 1,
     status := .str "available", createdAt := 3, updatedAt := 3 },
   { id := "p2", name := .str "B", location := .str "Y", brochure := .null,
     image := .null, model3d := .null, availableApartments := .num 2,
     status := .str "available", createdAt := 1, updatedAt := 1 },
   { id := "p3", name := .str "C", location := .str "Z", brochure := .null,
     image := .null, model3d := .null, availableApartments := .num 0,
     status := .str "sold", createdAt := 2, updatedAt := 2 }]

/-- An absent field is falsy. -/
theorem jsTruthy_undef : jsTruthy .undef = false := rfl

/-- A truthy fallback stays truthy. -/
theorem jsOr_truthy {a b : JsValue} (h : jsTruthy b = true) :
    jsTruthy (jsOr a b) = true := by
  unfold jsOr
  by_cases ha : jsTruthy a <;> simp [ha, h]

/-- C3: creating a property with only a non-empty `name` and `location`
yields HTTP 201 and appends a record whose `brochure`, `image`, `model3d`
are null, whose `availableApartments` is 0 and whose `status` is
`"available"`. -/
theorem create_minimal_defaults (store : List Property) (g : String)
    (now : Int) (nm loc : String) (hn : nm ≠ "") (hl : loc ≠ "") :
    createProperty none store g now
      { name := .str nm, location := .str loc, brochure := .undef,
        image := .undef, model3d := .undef,
        availableApartments := .undef, status := .undef } =
    ({ status := 201, message := some "Property created successfully",
       property := some
         { id := g, name := .str nm, location := .str loc,
           brochure := .null, image := .null, model3d := .null,
           availableApartments := .num 0, status := .str "available",
           createdAt := now, updatedAt := now },
       errorText := none },
     store ++
       [{ id := g, name := .str nm, location := .str loc,
          brochure := .null, image := .null, model3d := .null,
          availableApartments := .num 0, status := .str "available",
          createdAt := now, updatedAt := now }]) := by
  simp [createProperty, jsTruthy, jsOr, hn, hl]

theorem create_minimal_defaults_witness :
    createProperty none [] "p9" 7
      { name := .str "X", location := .str "Y", brochure := .undef,
        image := .undef, model3d := .undef,
        availableApartments := .undef, status := .undef } =
    ({ status := 201, message := some "Property created successfully",
       property := some
         { id := "p9", name := .str "X", location := .str "Y",
           brochure := .null, image := .null, model3d := .null,
           availableApartments := .num 0, status := .str "available",
           createdAt := 7, updatedAt := 7 },
       errorText := none },
     [{ id := "p9", name := .str "X", location := .str "Y",
        brochure := .null, image := .null, model3d := .null,
        availableApartments := .num 0, status := .str "available",
        createdAt := 7, updatedAt := 7 }]) :=
  create_minimal_defaults [] "p9" 7 "X" "Y" (by decide) (by decide)

/-- C4: whenever `name` or `location` is falsy, create returns HTTP 400
with message "Name and location are required" and leaves the store
unchanged — whatever the state of the persistence client, which is never
reached. -/
theorem create_requires_name_location (fault : Option String)
    (store : List Property) (g : String) (now : Int) (b : PropertyBody)
    (h : jsTruthy b.name = false ∨ jsTruthy b.location = false) :
    createProperty fault store g now b =
    ({ status := 400, message := some "Name and location are required",
       property := none, errorText := none }, store) := by
  rcases h with h | h <;> simp [createProperty, h]

theorem create_requires_name_location_witness :
    createProperty none demoStore "p9" 7
      { name := .undef, location := .str "Y", brochure := .undef,
        image := .undef, model3d := .undef,
        availableApartments := .undef, status := .undef } =
    ({ status := 400, message := some "Name and location are required",
       property := none, errorText := none }, demoStore) :=
  create_requires_name_location none demoStore "p9" 7
    { name := .undef, location := .str "Y", brochure := .undef,
      image := .undef, model3d := .undef,
      availableApartments := .undef, status := .undef }
    (Or.inl (by decide))

/-- C6: for an id with no record in the store, get-by-id, update and
delete all answer HTTP 404 with message "Property not found" and the
store is unchanged. -/
theorem missing_id_404 (store : List Property) (id : String) (now : Int)
    (b : PropertyBody) (h : store.find? (fun p => p.id == id) = none) :
    getProperty none store id =
      { status := 404, message := some "Property not found",
        property := none, errorText := none } ∧
    updateProperty none store id now b =
      ({ status := 404, message := some "Property not found",
         property := none, errorText := none }, store) ∧
    deleteProperty none store id =
      ({ status := 404, message := some "Property not found",
         property := none, errorText := none }, store) := by
  refine ⟨?_, ?_, ?_⟩ <;>
    simp [getProperty, updateProperty, deleteProperty, h]

theorem missing_id_404_witness :
    getProperty none demoStore "zz" =
      { status := 404, message := some "Property not found",
        property := none, errorText := none } ∧
    updateProperty none demoStore "zz" 9 sampleBody =
      ({ status := 404, message := some "Property not found",
         property := none, errorText := none }, demoStore) ∧
    deleteProperty none demoStore "zz" =
      ({ status := 404, message := some "Property not found",
         property := none, errorText := none }, demoStore) :=
  missing_id_404 demoStore "zz" 9 sampleBody (by decide)

/-- C9: when the persistence client fails with message `m`, every handler
catches locally and answers HTTP 500 with its generic message plus the
underlying error text, leaving the store unchanged (for create, under a
body that passes validation, so that the persistence call is reached). -/
theorem fault_returns_500 (store : List Property) (m g id : String)
    (now : Int) (b : PropertyBody) (pq lq : Option String)
    (hn : jsTruthy b.name = true) (hlo : jsTruthy b.location = true) :
    createProperty (some m) store g now b =
      ({ status := 500,
         message := some "Server error during property creation",
         property := none, errorText := some m }, store) ∧
    listProperties (some m) store pq lq =
      { status := 500, message := some "Server error", properties := [],
        pagination := none, errorText := some m } ∧
    getProperty (some m) store id =
      { status := 500, message := some "Server error",
        property := none, errorText := some m } ∧
    updateProperty (some m) store id now b =
      ({ status := 500,
         message := some "Server error during property update",
         property := none, errorText := some m }, store) ∧
    deleteProperty (some m) store id =
      ({ status := 500,
         message := some "Server error during property deletion",
         property := none, errorText := some m }, store) := by
  refine ⟨?_, ?_, ?_, ?_, ?_⟩ <;>
    simp [createProperty, listProperties, getProperty, updateProperty,
      deleteProperty, hn, hlo]

theorem fault_returns_500_witness :
    createProperty (some "db down") demoStore "g" 5 sampleFalsyBody =
      ({ status := 500,
         message := some "Server error during property creation",
         property := none, errorText := some "db down" }, demoStore) ∧
    listProperties (some "db down") demoStore (some "1") none =
      { status := 500, message := some "Server error", properties := [],
        pagination := none, errorText := some "db down" } ∧
    getProperty (some "db down") demoStore "p1" =
      { status := 500, message := some "Server error",
        property := none, errorText := some "db down" } ∧
    updateProperty (some "db down") demoStore "p1" 5 sampleFalsyBody =
      ({ status := 500,
         message := some "Server error during property update",
         property := none, errorText := some "db down" }, demoStore) ∧
    deleteProperty (some "db down") demoStore "p1" =
      ({ status := 500,
         message := some "Server error during property deletion",
         property := none, errorText := some "db down" }, demoStore) :=
  fault_returns_500 demoStore "db down" "g" "p1" 5 sampleFalsyBody
    (some "1") none (by decide) (by decide)

/-- C1: on update of an existing record the merge is asymmetric — a falsy
supplied `name`, `location` or `status` keeps the stored value while a
truthy one overwrites, whereas for `brochure`, `image`, `model3d` and
`availableApartments` any present value (falsy included) overwrites and
only an absent field keeps the stored value; in particular a supplied
`availableApartments = 0` sets the count to 0. -/
theorem update_merge_asymmetry (store : List Property) (id : String)
    (now : Int) (b : PropertyBody) (existing : Property)
    (h : store.find? (fun p => p.id == id) = some existing) :
    (updateProperty none store id now b).1.property =
      some (mergeUpdate existing b now) ∧
    (updateProperty none store id now b).2 =
      store.map (fun q => if q.id == id then mergeUpdate existing b now else q) ∧
    (jsTruthy b.name = false →
      (mergeUpdate existing b now).name = existing.name) ∧
    (jsTruthy b.name = true → (mergeUpdate existing b now).name = b.name) ∧
    (jsTruthy b.location = false →
      (mergeUpdate existing b now).location = existing.location) ∧
    (jsTruthy b.location = true →
      (mergeUpdate existing b now).location = b.location) ∧
    (jsTruthy b.status = false →
      (mergeUpdate existing b now).status = existing.status) ∧
    (jsTruthy b.status = true →
      (mergeUpdate existing b now).status = b.status) ∧
    (jsPresent b.brochure = true →
      (mergeUpdate existing b now).brochure = b.brochure) ∧
    (jsPresent b.brochure = false →
      (mergeUpdate existing b now).brochure = existing.brochure) ∧
    (jsPresent b.image = true →
      (mergeUpdate existing b now).image = b.image) ∧
    (jsPresent b.image = false →
      (mergeUpdate existing b now).image = existing.image) ∧
    (jsPresent b.model3d = true →
      (mergeUpdate existing b now).model3d = b.model3d) ∧
    (jsPresent b.model3d = false →
      (mergeUpdate existing b now).model3d = existing.model3d) ∧
    (jsPresent b.availableApartments = true →
      (mergeUpdate existing b now).availableApartments =
        b.availableApartments) ∧
    (jsPresent b.availableApartments = false →
      (mergeUpdate existing b now).availableApartments =
        existing.availableApartments) ∧
    (b.availableApartments = .num 0 →
      (mergeUpdate existing b now).availableApartments = .num 0) := by
  refine ⟨?_, ?_, ?_, ?_, ?_, ?_, ?_, ?_, ?_, ?_, ?_, ?_, ?_, ?_, ?_, ?_, ?_⟩
  · simp [updateProperty, h]
  · simp [updateProperty, h]
  all_goals intro h'
  all_goals first
    | (simp [mergeUpdate, jsOr, h']; done)
    | simp [mergeUpdate, jsOr, jsPresent, h']

theorem update_merge_asymmetry_witness :
    (updateProperty none [sampleProp] "p1" 20 sampleBody).1.property =
      some (mergeUpdate sampleProp sampleBody 20) ∧
    (mergeUpdate sampleProp sampleBody 20).name = sampleProp.name ∧
    (mergeUpdate sampleProp sampleBody 20).availableApartments =
      .num 0 := by
  have h := update_merge_asymmetry [sampleProp] "p1" 20 sampleBody
    sampleProp (by decide)
  obtain ⟨h1, _, hnf, _, _, _, _, _, _, _, _, _, _, _, _, _, ha0⟩ := h
  exact ⟨h1, hnf (by decide), ha0 (by decide)⟩

/-- C10: on create every optional field is defaulted by truthiness, so an
explicitly supplied falsy `brochure`, `image`, `model3d`,
`availableApartments` or `status` produces the same result as omitting the
field, and the persisted record holds the default for it. -/
theorem create_falsy_optional_defaults (store : List Property) (g : String)
    (now : Int) (b : PropertyBody) :
    (jsTruthy b.brochure = false → createProperty none store g now b =
      createProperty none store g now { b with brochure := .undef }) ∧
    (jsTruthy b.image = false → createProperty none store g now b =
      createProperty none store g now { b with image := .undef }) ∧
    (jsTruthy b.model3d = false → createProperty none store g now b =
      createProperty none store g now { b with model3d := .undef }) ∧
    (jsTruthy b.availableApartments = false →
      createProperty none store g now b =
      createProperty none store g now
        { b with availableApartments := .undef }) ∧
    (jsTruthy b.status = false → createProperty none store g now b =
      createProperty none store g now { b with status := .undef }) ∧
    (jsTruthy b.brochure = false → ∀ p,
      (createProperty none store g now b).1.property = some p →
      p.brochure = .null) ∧
    (jsTruthy b.image = false → ∀ p,
      (createProperty none store g now b).1.property = some p →
      p.image = .null) ∧
    (jsTruthy b.model3d = false → ∀ p,
      (createProperty none store g now b).1.property = some p →
      p.model3d = .null) ∧
    (jsTruthy b.availableApartments = false → ∀ p,
      (createProperty none store g now b).1.property = some p →
      p.availableApartments = .num 0) ∧
    (jsTruthy b.status = false → ∀ p,
      (createProperty none store g now b).1.property = some p →
      p.status = .str "available") := by
  refine ⟨?_, ?_, ?_, ?_, ?_, ?_, ?_, ?_, ?_, ?_⟩ <;> intro h'
  · simp [createProperty, jsOr, jsTruthy_undef, h']
  · simp [createProperty, jsOr, jsTruthy_undef, h']
  · simp [createProperty, jsOr, jsTruthy_undef, h']
  · simp [createProperty, jsOr, jsTruthy_undef, h']
  · simp [createProperty, jsOr, jsTruthy_undef, h']
  all_goals
    intro p hp
    simp only [createProperty] at hp
    split at hp
    · simp at hp
    · simp [jsOr, h'] at hp
      subst hp
      simp [jsOr, h']

theorem create_falsy_optional_defaults_witness :
    createProperty none [] "g" 2 sampleFalsyBody =
      createProperty none [] "g" 2
        { sampleFalsyBody with brochure := .undef } ∧
    ({ id := "g", name := .str "Casa Alta", location := .str "Goa",
       brochure := .null, image := .null, model3d := .null,
       availableApartments := .num 0, status := .str "available",
       createdAt := 2, updatedAt := 2 } : Property).status =
      .str "available" := by
  have h := create_falsy_optional_defaults [] "g" 2 sampleFalsyBody
  obtain ⟨h1, _, _, _, _, _, _, _, _, h10⟩ := h
  exact ⟨h1 (by decide),
    h10 (by decide)
      { id := "g", name := .str "Casa Alta", location := .str "Goa",
        brochure := .null, image := .null, model3d := .null,
        availableApartments := .num 0, status := .str "available",
        createdAt := 2, updatedAt := 2 } (by decide)⟩

/-- C8: after a successful create with a fresh id, get-by-id on the
returned record's id answers HTTP 200 with exactly the record of the
create response; its timestamps are the server-assigned `now`, equal to
one another. -/
theorem create_then_get_roundtrip (store : List Property) (g : String)
    (now : Int) (b : PropertyBody) (p : Property)
    (hfresh : ∀ q ∈ store, q.id ≠ g)
    (hc : (createProperty none store g now b).1.property = some p) :
    getProperty none (createProperty none store g now b).2 p.id =
      { status := 200, message := none, property := some p,
        errorText := none } ∧
    p.createdAt = now ∧ p.updatedAt = now := by
  have hnone : store.find? (fun q => q.id == g) = none := by
    rw [List.find?_eq_none]
    intro q hq
    simpa using hfresh q hq
  cases hbool : (!jsTruthy b.name || !jsTruthy b.location) with
  | true => simp [createProperty, hbool] at hc
  | false =>
    simp [createProperty, hbool] at hc
    subst hc
    refine ⟨?_, rfl, rfl⟩
    simp [createProperty, getProperty, hbool, hnone]

theorem create_then_get_roundtrip_witness :
    getProperty none
      (createProperty none demoStore "p9" 7 sampleFalsyBody).2
      "p9" =
      { status := 200, message := none,
        property := some
          { id := "p9", name := .str "Casa Alta", location := .str "Goa",
            brochure := .null, image := .null, model3d := .null,
            availableApartments := .num 0, status := .str "available",
            createdAt := 7, updatedAt := 7 },
        errorText := none } ∧
    (7 : Int) = 7 ∧ (7 : Int) = 7 :=
  create_then_get_roundtrip demoStore "p9" 7 sampleFalsyBody
    { id := "p9", name := .str "Casa Alta", location := .str "Goa",
      brochure := .null, image := .null, model3d := .null,
      availableApartments := .num 0, status := .str "available",
      createdAt := 7, updatedAt := 7 }
    (by decide) (by decide)

/-- Create preserves truthy names and locations: it rejects a falsy
`name` or `location` before persisting. -/
theorem goodStore_create (store : List Property) (g : String) (now : Int)
    (b : PropertyBody) (h : GoodStore store) :
    GoodStore (createProperty none store g now b).2 := by
  cases hbool : (!jsTruthy b.name || !jsTruthy b.location) with
  | true =>
    intro p hp
    simp only [createProperty, hbool] at hp
    exact h p (by simpa using hp)
  | false =>
    have hb : jsTruthy b.name = true ∧ jsTruthy b.location = true := by
      constructor <;> [skip; skip] <;>
        · revert hbool
          cases jsTruthy b.name <;> cases jsTruthy b.location <;> simp
    intro p hp
    simp only [createProperty, hbool] at hp
    simp at hp
    rcases hp with hp2 | rfl
    · exact h p hp2
    · exact ⟨hb.1, hb.2⟩

/-- Update preserves truthy names and locations: a falsy supplied value
falls back to the existing (truthy) one. -/
theorem goodStore_update (store : List Property) (id : String) (now : Int)
    (b : PropertyBody) (h : GoodStore store) :
    GoodStore (updateProperty none store id now b).2 := by
  cases hf : store.find? (fun p => p.id == id) with
  | none =>
    intro p hp
    simp only [updateProperty, hf] at hp
    exact h p hp
  | some existing =>
    have hex := h existing (List.mem_of_find?_eq_some hf)
    intro p hp
    simp only [updateProperty, hf] at hp
    rw [List.mem_map] at hp
    obtain ⟨q, hq, hpq⟩ := hp
    by_cases hid : (q.id == id) = true
    · rw [if_pos hid] at hpq
      subst hpq
      exact ⟨jsOr_truthy hex.1, jsOr_truthy hex.2⟩
    · rw [if_neg hid] at hpq
      subst hpq
      exact h q hq

/-- Delete preserves truthy names and locations. -/
theorem goodStore_delete (store : List Property) (id : String)
    (h : GoodStore store) :
    GoodStore (deleteProperty none store id).2 := by
  cases hf : store.find? (fun p => p.id == id) with
  | none =>
    intro p hp
    simp only [deleteProperty, hf] at hp
    exact h p hp
  | some existing =>
    intro p hp
    simp only [deleteProperty, hf] at hp
    exact h p (List.mem_of_mem_filter hp)

/-- Any single mutating request preserves the invariant. -/
theorem goodStore_applyOp (store : List Property) (op : Op)
    (h : GoodStore store) : GoodStore (applyOp store op) := by
  cases op with
  | createOp g n b => exact goodStore_create store g n b h
  | updateOp i n b => exact goodStore_update store i n b h
  | deleteOp i => exact goodStore_delete store i h

/-- The invariant is preserved along any request sequence. -/
theorem goodStore_foldl (ops : List Op) : ∀ store, GoodStore store →
    GoodStore (List.foldl applyOp store ops) := by
  induction ops with
  | nil => intro s h; exact h
  | cons op rest ih =>
    intro s h
    exact ih _ (goodStore_applyOp s op h)

/-- C7: starting from the empty store, no sequence of create, update and
delete requests can reach a store holding a record with a falsy (empty)
`name` or `location`: create validates both before persisting and update
falls back to the existing truthy value whenever the supplied one is
falsy. -/
theorem name_location_invariant (ops : List Op) :
    GoodStore (List.foldl applyOp [] ops) :=
  goodStore_foldl ops [] (by intro p hp; cases hp)

/-- C5 (counterexample): a negative parse result does not fall back to
the default — the query `limit=-5` (with `page` absent, so `skip = 0` and
the persistence call succeeds) resolves to `itemsPerPage = -5`, not to
the default `10`, because `-5` is truthy in JavaScript. -/
theorem param_negative_no_fallback :
    (listProperties none [] none (some "-5")).pagination.map
      Pagination.itemsPerPage = some (-5) ∧ ((-5 : Int) ≠ 10) := by
  constructor
  · decide
  · decide

/-- C5 (amended): `page` and `limit` are coerced with defaults 1 and 10;
a parse failure (non-numeric input, absent parameter) and a parse result
of zero fall back to the default, while any non-zero parse result —
negative ones included — is used as-is (whenever the request yields a
pagination descriptor at all, it echoes the resolved values verbatim). -/
theorem list_param_coercion (store : List Property) (pq lq : Option String)
    (pag : Pagination)
    (h : (listProperties none store pq lq).pagination = some pag) :
    pag.currentPage = jsOrDefault (Option.bind pq parseIntJs) 1 ∧
    pag.itemsPerPage = jsOrDefault (Option.bind lq parseIntJs) 10 ∧
    (∀ d : Int, jsOrDefault none d = d) ∧
    (∀ d : Int, jsOrDefault (some 0) d = d) ∧
    (∀ d v : Int, v ≠ 0 → jsOrDefault (some v) d = v) := by
  simp only [listProperties] at h
  by_cases hskip : ((jsOrDefault (Option.bind pq parseIntJs) 1 - 1) *
      jsOrDefault (Option.bind lq parseIntJs) 10 < 0)
  · rw [if_pos hskip] at h
    simp at h
  · rw [if_neg hskip] at h
    rw [Option.some_inj] at h
    subst h
    refine ⟨rfl, rfl, fun d => rfl, fun d => rfl, fun d v hv => ?_⟩
    simp [jsOrDefault, hv]

theorem list_param_coercion_witness :
    jsOrDefault (Option.bind (some "abc") parseIntJs) 1 = 1 ∧
    jsOrDefault (some (-7)) 10 = -7 := by
  have h := list_param_coercion [] (some "abc") (some "xyz")
    { currentPage := 1, totalPages := 0, totalItems := 0,
      itemsPerPage := 10, hasNextPage := false, hasPrevPage := false }
    (by decide)
  exact ⟨h.1.symm, h.2.2.2.2 10 (-7) (by decide)⟩

/-- For a positive divisor, the integer form of `Math.ceil(n / l)` is the
natural ceiling division. -/
theorem jsCeilDiv_natCast (n : Nat) (l : Int) (hl : 1 ≤ l) :
    jsCeilDiv (n : Int) l =
      (((n + (l.toNat - 1)) / l.toNat : Nat) : Int) := by
  obtain ⟨k, rfl⟩ : ∃ k : Nat, l = (k : Int) := ⟨l.toNat, by omega⟩
  have hk : 1 ≤ k := by omega
  have h1 : ((n : Int) + (k : Int) - 1) = ((n + (k - 1) : Nat) : Int) := by
    omega
  have h2 : ((k : Int)).toNat = k := by omega
  unfold jsCeilDiv
  rw [if_pos (by omega : (0 : Int) ≤ (k : Int)), h1, h2]
  rfl

/-- C2: for a list request resolving to page `p ≥ 1` and limit `l ≥ 1`
over `n = store.length` records, the handler returns HTTP 200, the page
of at most `l` records obtained by skipping `(p-1)*l` of the
`createdAt`-descending ordering, and the pagination descriptor with
`currentPage = p`, `totalPages = ⌈n/l⌉`, `totalItems = n`,
`itemsPerPage = l`, `hasNextPage = (p < ⌈n/l⌉)` and
`hasPrevPage = (p > 1)`. -/
theorem list_pagination_contract (store : List Property)
    (pq lq : Option String) (p l : Int)
    (hp : jsOrDefault (Option.bind pq parseIntJs) 1 = p)
    (hl : jsOrDefault (Option.bind lq parseIntJs) 10 = l)
    (hp1 : 1 ≤ p) (hl1 : 1 ≤ l) :
    (listProperties none store pq lq).status = 200 ∧
    (listProperties none store pq lq).properties =
      ((sortByCreatedAtDesc store).drop (((p - 1) * l).toNat)).take l.toNat ∧
    ((listProperties none store pq lq).properties.length : Int) ≤ l ∧
    List.Sorted byCreatedAtDesc (listProperties none store pq lq).properties ∧
    (listProperties none store pq lq).pagination = some
      { currentPage := p,
        totalPages := (((store.length + (l.toNat - 1)) / l.toNat : Nat) : Int),
        totalItems := store.length, itemsPerPage := l,
        hasNextPage :=
          decide
            (p < (((store.length + (l.toNat - 1)) / l.toNat : Nat) : Int)),
        hasPrevPage := decide (1 < p) } := by
  subst hp
  subst hl
  have hskip : ¬((jsOrDefault (Option.bind pq parseIntJs) 1 - 1) *
      jsOrDefault (Option.bind lq parseIntJs) 10 < 0) := by
    push_neg
    exact mul_nonneg (by omega) (by omega)
  have hlim : (0 : Int) ≤ jsOrDefault (Option.bind lq parseIntJs) 10 := by
    omega
  refine ⟨?_, ?_, ?_, ?_, ?_⟩
  · simp only [listProperties]
    rw [if_neg hskip]
  · simp only [listProperties]
    rw [if_neg hskip, if_pos hlim]
  · have hlen : (listProperties none store pq lq).properties.length ≤
        (jsOrDefault (Option.bind lq parseIntJs) 10).toNat := by
      simp only [listProperties]
      rw [if_neg hskip, if_pos hlim]
      exact List.length_take_le _ _
    omega
  · have hs : List.Sorted byCreatedAtDesc (sortByCreatedAtDesc store) :=
      List.sorted_insertionSort byCreatedAtDesc store
    have hsub : List.Sublist (listProperties none store pq lq).properties
        (sortByCreatedAtDesc store) := by
      simp only [listProperties]
      rw [if_neg hskip, if_pos hlim]
      exact (List.take_sublist _ _).trans (List.drop_sublist _ _)
    exact List.Pairwise.sublist hsub hs
  · simp only [listProperties]
    rw [if_neg hskip]
    rw [jsCeilDiv_natCast store.length _ hl1]

theorem list_pagination_contract_witness :
    (listProperties none demoStore (some "2") (some "2")).status = 200 ∧
    (listProperties none demoStore (some "2") (some "2")).pagination = some
      { currentPage := 2, totalPages := 2, totalItems := 3,
        itemsPerPage := 2, hasNextPage := false, hasPrevPage := true } := by
  have h := list_pagination_contract demoStore (some "2") (some "2") 2 2
    (by decide) (by decide) (by decide) (by decide)
  refine ⟨h.1, ?_⟩
  rw [h.2.2.2.2]
  decide
